import Mathlib

/-!
Verification of the D-Bus service → systemd unit discovery and remediation
engine of `setup_obs_multicam.py` (functions `run_quiet`,
`find_dbus_unit_for_service`, `is_unit_masked`, `unmask_and_start_dbus_service`).

The Python code is shallowly embedded: every external effect (running
`systemctl`, `sudo systemctl`, `grep`, listing a directory, reading a file) is
an oracle packaged in an `Env` record, and each embedded function is a pure
Lean function of the `Env`.  Strings are modelled as `List Char` (`Str`) with
executable re-implementations of the Python string operations the source uses
(`strip`, `lower`, `startswith`, `endswith`, `splitlines`, `os.path.basename`,
substring test); Lean's built-in `String` functions are avoided because they
do not reduce inside the kernel.

The behaviour of `grep -lE` on the exact pattern the script builds was
determined against GNU grep (3.8, same glibc-regex family as the Fedora
target): the pattern is accepted with the warning `? at start of expression`;
the leading `?` of the group `(?:\s*|#.*)?` is treated as matching the empty
string, so the trailing group matches the empty string, a literal `:` followed
by whitespace, or a literal `#` followed by anything.  `lineMatch` below
implements exactly that observed semantics.
-/

/-- Strings of the embedded program: lists of characters (Python `str`). -/
abbrev Str := List Char

/-- Convert a Lean string literal to the embedded string type. -/
def str (s : String) : Str := s.toList

/-- Python's `str.strip()` / grep's `[[:space:]]` whitespace class
(space, tab, newline, carriage return, vertical tab, form feed). -/
def isPyWs (c : Char) : Bool :=
  c = ' ' || c = '\t' || c = '\n' || c = '\r' || c = '\x0b' || c = '\x0c'

/-- Python `s.startswith(pat)`: does the first list start with the second? -/
def startsWithL : Str → Str → Bool
  | _, [] => true
  | [], _ :: _ => false
  | a :: as, b :: bs => a = b && startsWithL as bs

/-- Python `s.endswith(pat)`. -/
def endsWithL (s pat : Str) : Bool := startsWithL s.reverse pat.reverse

/-- Python `pat in s`: substring occurrence. -/
def occursIn (pat : Str) : Str → Bool
  | [] => pat.isEmpty
  | c :: rest => startsWithL (c :: rest) pat || occursIn pat rest

/-- Python `str.strip()`. -/
def stripL (l : Str) : Str :=
  ((l.dropWhile isPyWs).reverse.dropWhile isPyWs).reverse

/-- ASCII lower-casing of one character (the service-manager output compared
here is ASCII, so this matches Python `str.lower()` on the relevant inputs). -/
def lowerChar (c : Char) : Char :=
  if 'A' ≤ c && c ≤ 'Z' then Char.ofNat (c.toNat + 32) else c

/-- Python `str.lower()`. -/
def lowerL (l : Str) : Str := l.map lowerChar

/-- Split a list at every occurrence of the separator character. -/
def splitOnChar (sep : Char) : Str → List Str
  | [] => [[]]
  | c :: rest =>
    match splitOnChar sep rest with
    | [] => [[c]]
    | h :: t => if c = sep then [] :: h :: t else (c :: h) :: t

/-- Python `os.path.basename`: the part after the last `/`. -/
def basenameL (p : Str) : Str := (splitOnChar '/' p).getLastD []

/-- Scope of a systemd unit: the `--user` / `--system` flag of the script.
(`unmask_and_start_dbus_service` only ever produces these two values for
`target_scope`.) -/
inductive Scope where
  | user
  | system
deriving DecidableEq, Repr

/-- How the resolver found a unit (spec `UnitCandidate.discovery_method`):
which `return` of `find_dbus_unit_for_service` fired. -/
inductive Method where
  | directQuery
  | unitFileGrep
  | heuristic
deriving DecidableEq, Repr

/-- Result of one external command as `run_quiet` reports it:
`(returncode, stdout + stderr)`. -/
structure ExecResult where
  rc : Int
  output : Str
deriving DecidableEq, Repr

/-- Possible outcomes of `subprocess.run` inside `run_quiet`
(lines 184–210 of the source). -/
inductive ProcOutcome where
  | completed (rc : Int) (out err : Str)
  | notFound
  | failed (msg : Str)
deriving DecidableEq, Repr

/-- `run_quiet(cmd, allow_fail)` (source lines 184–210).  `none` models
`sys.exit` (process abort); every other path returns `(rc, combined_output)`.
A completed process yields `(returncode, stdout + stderr)`; with
`allow_fail=False` a non-zero return code raises `CalledProcessError`, which
the generic handler turns into `sys.exit(1)`.  A missing executable raises
`FileNotFoundError`, reported as `(127, "")` when `allow_fail` holds; any
other exception is reported as `(1, str(e))`. -/
def run_quiet (allow_fail : Bool) (o : ProcOutcome) : Option (Int × Str) :=
  match o with
  | ProcOutcome.completed rc out err =>
    if allow_fail = false ∧ rc ≠ 0 then none else some (rc, out ++ err)
  | ProcOutcome.notFound => if allow_fail then some (127, []) else none
  | ProcOutcome.failed msg => if allow_fail then some (1, msg) else none

/-- The remediation-phase external commands the script can issue, in the
order it issues them (instrumentation of the embedding: each constructor is
one `run_quiet` call site of `unmask_and_start_dbus_service` /
`is_unit_masked`).  The `Nat` on `isMasked` distinguishes the initial mask
check (0) from the re-check after starting (1). -/
inductive Call where
  | isMasked (unit : Str) (scope : Scope) (idx : Nat)
  | unmaskUser (unit : Str)
  | unmaskSudo (unit : Str)
  | daemonReload (scope : Scope)
  | start (unit : Str) (scope : Scope)
  | enable (unit : Str) (scope : Scope)
  | status (unit : Str) (scope : Scope)
deriving DecidableEq, Repr

/-- Is this call a `systemctl ... start` or `systemctl ... enable`? -/
def Call.isStartOrEnable : Call → Bool
  | Call.start _ _ => true
  | Call.enable _ _ => true
  | _ => false

/-- Is this call an unmask primitive (user-scoped or sudo system-wide)? -/
def Call.isUnmask : Call → Bool
  | Call.unmaskUser _ => true
  | Call.unmaskSudo _ => true
  | _ => false

/-- Does this call run in the resolved scope `s`?  `unmaskUser` is the
`systemctl --user unmask` call (inherently user-scoped); `unmaskSudo` is the
deliberately cross-scope `sudo systemctl unmask` fallback, so any resolved
scope is consistent with it. -/
def Call.scopeOk (s : Scope) : Call → Bool
  | Call.isMasked _ sc _ => sc = s
  | Call.unmaskUser _ => s = Scope.user
  | Call.unmaskSudo _ => true
  | Call.daemonReload sc => sc = s
  | Call.start _ sc => sc = s
  | Call.enable _ sc => sc = s
  | Call.status _ sc => sc = s

/-- The external world as the script observes it.  Each field gives the
result of one kind of external command or filesystem query; results of
distinct invocations of the same mask query are distinguished by the
occurrence index (the world may change between the two `is_unit_masked`
calls). -/
structure Env where
  /-- `os.path.expanduser("~")`. -/
  home : Str
  /-- `systemctl $scope show NAME --property=Unit --value` (lines 304–308). -/
  showUnit : Str → Scope → ExecResult
  /-- `os.path.isdir` + `os.listdir` for a unit directory: `none` when the
  directory is absent or listing raises `OSError` (lines 329–336). -/
  dirListing : Str → Option (List Str)
  /-- Contents (lines) of a unit file, as `grep` would read it. -/
  fileLines : Str → List Str
  /-- `systemctl $scope list-unit-files --full --all CANDIDATE` (365–369). -/
  listUnitFiles : Scope → Str → ExecResult
  /-- `systemctl $scope is-masked UNIT` (lines 377–383), by occurrence. -/
  isMaskedQ : Str → Scope → Nat → ExecResult
  /-- `systemctl --user unmask UNIT` (line 417). -/
  unmaskUser : Str → ExecResult
  /-- `sudo systemctl unmask UNIT` (lines 423, 428). -/
  unmaskSudo : Str → ExecResult
  /-- `systemctl $scope daemon-reload` (line 440). -/
  daemonReload : Scope → ExecResult
  /-- `systemctl $scope start UNIT` (line 445). -/
  start : Str → Scope → ExecResult
  /-- `systemctl $scope enable UNIT` (line 449). -/
  enable : Str → Scope → ExecResult
  /-- `systemctl $scope status UNIT` (line 454). -/
  status : Str → Scope → ExecResult

/-- Acceptance test of strategy 1 (line 310): the direct query result is used
iff the command exited 0 and its stripped output is non-empty, is not the
placeholder `unit` case-insensitively, and does not start with `No unit`. -/
def directAccept (r : ExecResult) : Bool :=
  r.rc == 0 && !(stripL r.output).isEmpty
    && !(lowerL (stripL r.output) == str "unit")
    && !(startsWithL (stripL r.output) (str "No unit"))

/-- The unit directories searched per scope (lines 317–325). -/
def unitSearchPaths (home : Str) : Scope → List Str
  | Scope.user => [home ++ str "/.config/systemd/user/", str "/usr/lib/systemd/user/"]
  | Scope.system => [str "/etc/systemd/system/", str "/usr/lib/systemd/system/"]

/-- The `.service` files handed to grep, in directory-listing order
(lines 327–336; `os.path.join` of a dir ending in `/` is concatenation). -/
def serviceFilesToGrep (env : Env) (scope : Scope) : List Str :=
  (unitSearchPaths env.home scope).flatMap fun d =>
    match env.dirListing d with
    | some names => (names.filter fun f => endsWithL f (str ".service")).map fun f => d ++ f
    | none => []

/-- Escape every dot of the service name (`dbus_service_name.replace('.', r'\.')`). -/
def dotEscape : Str → Str
  | [] => []
  | c :: rest => if c = '.' then '\\' :: '.' :: dotEscape rest else c :: dotEscape rest

/-- The literal regex the script builds at line 343 and passes to `grep -lE`. -/
def grep_pattern (name : Str) : Str :=
  str "^(BusName|ExecStart|D-BusService)=\\s*\\\"?" ++ dotEscape name
    ++ str "(\\.service)?\\\"?(?:\\s*|#.*)?$"

/-- The trailing group `(?:\s*|#.*)?$` of `grep_pattern` as GNU grep actually
interprets it (the leading `?` matches the empty string, so the alternatives
are `:\s*` and `#.*`, and the whole group is optional): the rest of the line
is empty, or `:` followed by whitespace only, or `#` followed by anything. -/
def trailerOk (s : Str) : Bool :=
  s.isEmpty || (startsWithL s (str ":") && (s.drop 1).all isPyWs)
    || startsWithL s (str "#")

/-- `\"?` then the trailing group: optional closing double quote. -/
def quoteTrailerOk (s : Str) : Bool :=
  trailerOk s || (startsWithL s (str "\"") && trailerOk (s.drop 1))

/-- `(\.service)?\"?` then the trailing group: optional `.service` suffix. -/
def afterNameOk (s : Str) : Bool :=
  quoteTrailerOk s || (startsWithL s (str ".service") && quoteTrailerOk (s.drop 8))

/-- The service name (dots literal) followed by `(\.service)?\"?` and the
trailing group. -/
def nameTailOk (name s : Str) : Bool :=
  startsWithL s name && afterNameOk (s.drop name.length)

/-- `\s*\"?` then name, suffix, quote, trailer: what may follow the `=`. -/
def eqValOk (name rest : Str) : Bool :=
  nameTailOk name (rest.dropWhile isPyWs)
    || (startsWithL (rest.dropWhile isPyWs) (str "\"")
          && nameTailOk name ((rest.dropWhile isPyWs).drop 1))

/-- Whole-line semantics of `grep -E` with `grep_pattern name` (observed GNU
grep behaviour, see the header comment): `^(BusName|ExecStart|D-BusService)=`
then `eqValOk`. -/
def lineMatch (name line : Str) : Bool :=
  [str "BusName", str "ExecStart", str "D-BusService"].any fun key =>
    startsWithL line (key ++ ['=']) && eqValOk name (line.drop (key.length + 1))

/-- Does the file contain a line matching `grep_pattern name`? -/
def fileMatches (env : Env) (name f : Str) : Bool :=
  (env.fileLines f).any (lineMatch name)

/-- The warning GNU grep (≥ 3.6) prints on stderr for the leading `?`. -/
def grepWarn : Str := str "grep: warning: ? at start of expression\n"

/-- `grep -lE <grep_pattern name> <files>` as `run_quiet` reports it: exit 1
and only the stderr warning when no file matches; exit 0 and the matching
file names (command-line order, one per line, stdout before stderr) when some
file matches. -/
def grepDashLE (env : Env) (name : Str) (files : List Str) : ExecResult :=
  match files.filter (fileMatches env name) with
  | [] => ⟨1, grepWarn⟩
  | h :: t => ⟨0, List.intercalate (str "\n") (h :: t) ++ str "\n" ++ grepWarn⟩

/-- The static heuristic table (lines 356–360): well-known D-Bus names with
their candidate unit names in priority order; every other name has no
candidates. -/
def commonUnitNames (name : Str) : List Str :=
  if name = str "org.a11y.Bus" then
    [str "at-spi-dbus-bus.service", str "at-spi-bus-launcher.service"]
  else if name = str "org.freedesktop.impl.portal.PermissionStore" then
    [str "xdg-desktop-portal.service", str "xdg-desktop-portal-gtk.service",
     str "xdg-desktop-portal-kde.service", str "xdg-desktop-portal-gnome.service",
     str "flatpak-portal.service"]
  else []

/-- The heuristic loop (lines 362–372): first candidate whose
`list-unit-files` query exits 0. -/
def firstExisting (env : Env) (scope : Scope) : List Str → Option Str
  | [] => none
  | c :: rest =>
    if (env.listUnitFiles scope c).rc = 0 then some c else firstExisting env scope rest

/-- Strategies 2 and 3 of `find_dbus_unit_for_service` (lines 315–375): the
unit-file grep, then the heuristic fallback.  The grep is only run when the
file list is non-empty; on success the unit is the basename of the stripped
first output line. -/
def findFromFiles (env : Env) (name : Str) (scope : Scope) : Option (Str × Method) :=
  let files := serviceFilesToGrep env scope
  let grepHit : Option Str :=
    if files.isEmpty then none
    else
      let g := grepDashLE env name files
      if g.rc == 0 && !(stripL g.output).isEmpty then
        some (basenameL (stripL ((splitOnChar '\n' g.output).headD [])))
      else none
  match grepHit with
  | some u => some (u, Method.unitFileGrep)
  | none => (firstExisting env scope (commonUnitNames name)).map fun u => (u, Method.heuristic)

/-- `find_dbus_unit_for_service(dbus_service_name, scope)` (lines 294–375),
additionally recording which strategy produced the unit. -/
def find_dbus_unit_for_service (env : Env) (name : Str) (scope : Scope) :
    Option (Str × Method) :=
  let r := env.showUnit name scope
  if directAccept r then some (stripL r.output, Method.directQuery)
  else findFromFiles env name scope

/-- The scope scan of `unmask_and_start_dbus_service` (lines 392–403): user
scope first, system scope only when the user scope found nothing.  The second
component records which scopes were queried. -/
def resolveOverall (env : Env) (name : Str) : Option (Str × Scope) × List Scope :=
  match find_dbus_unit_for_service env name Scope.user with
  | some (u, _) => (some (u, Scope.user), [Scope.user])
  | none =>
    match find_dbus_unit_for_service env name Scope.system with
    | some (u, _) => (some (u, Scope.system), [Scope.user, Scope.system])
    | none => (none, [Scope.user, Scope.system])

/-- `is_unit_masked(unit_name, scope)` (lines 377–383): exit code 0 means
masked.  `idx` is the occurrence index of the query (0 = initial check,
1 = re-check after starting). -/
def is_unit_masked (env : Env) (unit : Str) (scope : Scope) (idx : Nat) : Bool :=
  (env.isMaskedQ unit scope idx).rc == 0

/-- Line 455: `rc_status == 0 and "Active: active (running)" in status_output`. -/
def statusActive (env : Env) (unit : Str) (scope : Scope) : Bool :=
  (env.status unit scope).rc == 0
    && occursIn (str "Active: active (running)") (env.status unit scope).output

/-- Outcome of one remediation, in the vocabulary of the spec's
`RemediationResult`.  The source logs instead of returning a record; each
field is defined from the same command results the source's branches test.
`started`/`enabled` report the exit codes of the start/enable commands (the
source issues both and discards the codes; on the early-return paths they are
`false` because the commands were never issued).  `calls` is the trace of
remediation-phase external commands, in issue order. -/
structure RemOutcome where
  resolved : Option (Str × Scope)
  was_masked : Bool
  unmask_succeeded : Bool
  started : Bool
  enabled : Bool
  final_active : Bool
  re_masked_after_start : Bool
  calls : List Call

/-- The tail of `unmask_and_start_dbus_service` (lines 437–461): daemon
reload, start, enable, status; the mask re-check runs only when the status
report shows the unit active. -/
def remediationTail (env : Env) (unit : Str) (scope : Scope)
    (wasMasked unmaskOk : Bool) (callsSoFar : List Call) : RemOutcome :=
  { resolved := some (unit, scope)
    was_masked := wasMasked
    unmask_succeeded := unmaskOk
    started := (env.start unit scope).rc == 0
    enabled := (env.enable unit scope).rc == 0
    final_active := statusActive env unit scope
    re_masked_after_start := statusActive env unit scope && is_unit_masked env unit scope 1
    calls := callsSoFar
      ++ [Call.daemonReload scope, Call.start unit scope,
          Call.enable unit scope, Call.status unit scope]
      ++ (if statusActive env unit scope then [Call.isMasked unit scope 1] else []) }

/-- Early return of lines 433–435: the unit is masked and every attempted
unmask path failed; start/enable/status are never issued. -/
def blockedOutcome (unit : Str) (scope : Scope) (calls : List Call) : RemOutcome :=
  { resolved := some (unit, scope)
    was_masked := true
    unmask_succeeded := false
    started := false
    enabled := false
    final_active := false
    re_masked_after_start := false
    calls := calls }

/-- Early return of lines 405–407: no unit found in either scope. -/
def noUnitOutcome : RemOutcome :=
  { resolved := none
    was_masked := false
    unmask_succeeded := false
    started := false
    enabled := false
    final_active := false
    re_masked_after_start := false
    calls := [] }

/-- Lines 411–435: mask check, then the scope-dependent unmask ladder.  In
user scope a failed `systemctl --user unmask` falls back to
`sudo systemctl unmask`; in system scope only the sudo unmask is attempted.
If every attempted path fails the function returns without starting. -/
def afterMask (env : Env) (unit : Str) (scope : Scope) : RemOutcome :=
  if is_unit_masked env unit scope 0 then
    match scope with
    | Scope.user =>
      if (env.unmaskUser unit).rc = 0 then
        remediationTail env unit scope true true
          [Call.isMasked unit scope 0, Call.unmaskUser unit]
      else if (env.unmaskSudo unit).rc = 0 then
        remediationTail env unit scope true true
          [Call.isMasked unit scope 0, Call.unmaskUser unit, Call.unmaskSudo unit]
      else
        blockedOutcome unit scope
          [Call.isMasked unit scope 0, Call.unmaskUser unit, Call.unmaskSudo unit]
    | Scope.system =>
      if (env.unmaskSudo unit).rc = 0 then
        remediationTail env unit scope true true
          [Call.isMasked unit scope 0, Call.unmaskSudo unit]
      else
        blockedOutcome unit scope [Call.isMasked unit scope 0, Call.unmaskSudo unit]
  else
    remediationTail env unit scope false false [Call.isMasked unit scope 0]

/-- `unmask_and_start_dbus_service(dbus_service_name)` (lines 385–461). -/
def unmask_and_start_dbus_service (env : Env) (name : Str) : RemOutcome :=
  match (resolveOverall env name).1 with
  | none => noUnitOutcome
  | some (unit, scope) => afterMask env unit scope

/-- Did the masked unit get unmasked along the path the code attempts for
this scope? -/
def unmaskPathOk (env : Env) (unit : Str) : Scope → Prop
  | Scope.user => (env.unmaskUser unit).rc = 0 ∨ (env.unmaskSudo unit).rc = 0
  | Scope.system => (env.unmaskSudo unit).rc = 0

/-- A quiet world: every query fails with exit 1, nothing exists, no unit is
masked, start/enable/reload succeed, the status report is inactive. -/
def baseEnv : Env :=
  { home := str "/home/u"
    showUnit := fun _ _ => ⟨1, []⟩
    dirListing := fun _ => none
    fileLines := fun _ => []
    listUnitFiles := fun _ _ => ⟨1, []⟩
    isMaskedQ := fun _ _ _ => ⟨1, []⟩
    unmaskUser := fun _ => ⟨1, []⟩
    unmaskSudo := fun _ => ⟨1, []⟩
    daemonReload := fun _ => ⟨0, []⟩
    start := fun _ _ => ⟨0, []⟩
    enable := fun _ _ => ⟨0, []⟩
    status := fun _ _ => ⟨3, str "inactive"⟩ }

/-- The user-scope direct query reports a unit. -/
def envDirect : Env :=
  { baseEnv with
    showUnit := fun _ sc =>
      match sc with
      | Scope.user => ⟨0, str "u1.service"⟩
      | Scope.system => ⟨1, []⟩ }

/-- The direct query exits 0 with the placeholder answer `Unit`. -/
def envUnitPlaceholder : Env :=
  { baseEnv with showUnit := fun _ _ => ⟨0, str "Unit"⟩ }

/-- System scope has three unit files (plus a non-`.service` file); two of
them carry a `BusName=org.test.Bus` line, one an `ExecStart=` line. -/
def envGrep : Env :=
  { baseEnv with
    dirListing := fun d =>
      if d = str "/etc/systemd/system/" then
        some [str "zzz.service", str "aaa.service", str "readme.txt"]
      else if d = str "/usr/lib/systemd/system/" then
        some [str "bbb.service"]
      else none
    fileLines := fun f =>
      if f = str "/etc/systemd/system/zzz.service" then
        [str "[D-BUS Service]", str "BusName=org.test.Bus"]
      else if f = str "/etc/systemd/system/aaa.service" then
        [str "BusName=org.test.Bus"]
      else if f = str "/usr/lib/systemd/system/bbb.service" then
        [str "ExecStart=org.test.Bus"]
      else [] }

/-- Only the `xdg-desktop-portal-gtk.service` unit file exists. -/
def envHeur : Env :=
  { baseEnv with
    listUnitFiles := fun _ c =>
      if c = str "xdg-desktop-portal-gtk.service" then
        ⟨0, str "xdg-desktop-portal-gtk.service  static\n"⟩
      else ⟨1, []⟩ }

/-- A user unit that is masked and cannot be unmasked by any path. -/
def envMasked : Env :=
  { baseEnv with
    showUnit := fun _ sc =>
      match sc with
      | Scope.user => ⟨0, str "m1.service"⟩
      | Scope.system => ⟨1, []⟩
    isMaskedQ := fun _ _ _ => ⟨0, []⟩ }

/-- A user unit that is not masked (the status stays inactive). -/
def envNotMasked : Env :=
  { baseEnv with
    showUnit := fun _ sc =>
      match sc with
      | Scope.user => ⟨0, str "n1.service"⟩
      | Scope.system => ⟨1, []⟩ }

/-- A masked user unit: the user-scope unmask fails, the sudo fallback
succeeds. -/
def envFallback : Env :=
  { baseEnv with
    showUnit := fun _ sc =>
      match sc with
      | Scope.user => ⟨0, str "f1.service"⟩
      | Scope.system => ⟨1, []⟩
    isMaskedQ := fun _ _ i => if i = 0 then ⟨0, []⟩ else ⟨1, []⟩
    unmaskSudo := fun _ => ⟨0, []⟩ }

/-- A unit that is not masked, starts fine (status shows it running), but
the post-start mask re-check reports it masked again. -/
def envRace : Env :=
  { baseEnv with
    showUnit := fun _ sc =>
      match sc with
      | Scope.user => ⟨0, str "r1.service"⟩
      | Scope.system => ⟨1, []⟩
    isMaskedQ := fun _ _ i => if i = 0 then ⟨1, []⟩ else ⟨0, []⟩
    status := fun _ _ => ⟨0, str "r1.service - demo\n   Active: active (running) since today\n"⟩ }

/-! ### Helper lemmas -/

theorem startsWithL_append (l1 l2 : Str) : startsWithL (l1 ++ l2) l1 = true := by
  induction l1 with
  | nil => cases l2 <;> rfl
  | cons c cs ih => simp [startsWithL, ih]

theorem dropWhile_ws_append (ws r : Str) (h : ws.all isPyWs = true) :
    (ws ++ r).dropWhile isPyWs = r.dropWhile isPyWs := by
  induction ws with
  | nil => rfl
  | cons c cs ih =>
    rw [List.all_cons, Bool.and_eq_true] at h
    simp [List.dropWhile_cons, h.1, ih h.2]

theorem nameTailOk_self (name sfx : Str) (hs : afterNameOk sfx = true) :
    nameTailOk name (name ++ sfx) = true := by
  unfold nameTailOk
  rw [startsWithL_append, List.drop_left, hs]
  rfl

theorem eqValOk_plain (c : Char) (cs sfx : Str) (hw : isPyWs c = false)
    (hs : afterNameOk sfx = true) : eqValOk (c :: cs) ((c :: cs) ++ sfx) = true := by
  unfold eqValOk
  rw [List.cons_append, List.dropWhile_cons, hw]
  simp only [Bool.false_eq_true, if_false, ← List.cons_append]
  rw [nameTailOk_self _ _ hs]
  rfl

theorem eqValOk_ws (ws : Str) (c : Char) (cs sfx : Str) (hws : ws.all isPyWs = true)
    (hw : isPyWs c = false) (hs : afterNameOk sfx = true) :
    eqValOk (c :: cs) (ws ++ ((c :: cs) ++ sfx)) = true := by
  unfold eqValOk
  rw [dropWhile_ws_append _ _ hws, List.cons_append, List.dropWhile_cons, hw]
  simp only [Bool.false_eq_true, if_false, ← List.cons_append]
  rw [nameTailOk_self _ _ hs]
  rfl

theorem eqValOk_quoted (name sfx : Str) (hs : afterNameOk sfx = true) :
    eqValOk name ('"' :: (name ++ sfx)) = true := by
  unfold eqValOk
  rw [List.dropWhile_cons]
  have hq : isPyWs '"' = false := by decide
  rw [hq]
  simp only [Bool.false_eq_true, if_false]
  have h2 : startsWithL ('"' :: (name ++ sfx)) (str "\"") = true := by
    simp [startsWithL, str]
  rw [h2, List.drop_one, List.tail_cons, nameTailOk_self _ _ hs]
  simp

theorem lineMatch_keyed (name key rest : Str)
    (hkey : key ∈ [str "BusName", str "ExecStart", str "D-BusService"])
    (h : eqValOk name rest = true) :
    lineMatch name ((key ++ ['=']) ++ rest) = true := by
  unfold lineMatch
  rw [List.any_eq_true]
  refine ⟨key, hkey, ?_⟩
  rw [Bool.and_eq_true]
  constructor
  · exact startsWithL_append (key ++ ['=']) rest
  · have hl : key.length + 1 = (key ++ ['=']).length := by simp
    rw [hl, List.drop_left]
    exact h

theorem firstExisting_none (env : Env) (scope : Scope) (l : List Str)
    (h : ∀ c ∈ l, (env.listUnitFiles scope c).rc ≠ 0) :
    firstExisting env scope l = none := by
  induction l with
  | nil => rfl
  | cons c cs ih =>
    unfold firstExisting
    rw [if_neg (h c (List.mem_cons_self c cs))]
    exact ih fun d hd => h d (List.mem_cons_of_mem c hd)

theorem find_direct (env : Env) (name : Str) (scope : Scope)
    (h : directAccept (env.showUnit name scope) = true) :
    find_dbus_unit_for_service env name scope
      = some (stripL (env.showUnit name scope).output, Method.directQuery) := by
  simp [find_dbus_unit_for_service, h]

theorem find_not_direct (env : Env) (name : Str) (scope : Scope)
    (h : directAccept (env.showUnit name scope) = false) :
    find_dbus_unit_for_service env name scope = findFromFiles env name scope := by
  simp [find_dbus_unit_for_service, h]

theorem findFromFiles_no_hits (env : Env) (name : Str) (scope : Scope)
    (h : (serviceFilesToGrep env scope).filter (fileMatches env name) = []) :
    findFromFiles env name scope
      = (firstExisting env scope (commonUnitNames name)).map
          (fun u => (u, Method.heuristic)) := by
  unfold findFromFiles
  cases hfe : (serviceFilesToGrep env scope).isEmpty with
  | true => simp [hfe]
  | false => simp [hfe, grepDashLE, h]

theorem resolveOverall_user (env : Env) (name u : Str) (m : Method)
    (h : find_dbus_unit_for_service env name Scope.user = some (u, m)) :
    resolveOverall env name = (some (u, Scope.user), [Scope.user]) := by
  unfold resolveOverall
  rw [h]

theorem resolveOverall_system (env : Env) (name u : Str) (m : Method)
    (h1 : find_dbus_unit_for_service env name Scope.user = none)
    (h2 : find_dbus_unit_for_service env name Scope.system = some (u, m)) :
    resolveOverall env name = (some (u, Scope.system), [Scope.user, Scope.system]) := by
  unfold resolveOverall
  rw [h1, h2]

theorem resolveOverall_none (env : Env) (name : Str)
    (h1 : find_dbus_unit_for_service env name Scope.user = none)
    (h2 : find_dbus_unit_for_service env name Scope.system = none) :
    resolveOverall env name = (none, [Scope.user, Scope.system]) := by
  unfold resolveOverall
  rw [h1, h2]

theorem uas_eq_afterMask (env : Env) (name unit : Str) (scope : Scope)
    (h : (resolveOverall env name).1 = some (unit, scope)) :
    unmask_and_start_dbus_service env name = afterMask env unit scope := by
  unfold unmask_and_start_dbus_service
  rw [h]

theorem afterMask_not_masked (env : Env) (unit : Str) (scope : Scope)
    (h : is_unit_masked env unit scope 0 = false) :
    afterMask env unit scope
      = remediationTail env unit scope false false [Call.isMasked unit scope 0] := by
  simp [afterMask, h]

theorem afterMask_user_unmask_ok (env : Env) (unit : Str)
    (h : is_unit_masked env unit Scope.user 0 = true)
    (h1 : (env.unmaskUser unit).rc = 0) :
    afterMask env unit Scope.user
      = remediationTail env unit Scope.user true true
          [Call.isMasked unit Scope.user 0, Call.unmaskUser unit] := by
  simp [afterMask, h, h1]

theorem afterMask_user_fallback (env : Env) (unit : Str)
    (h : is_unit_masked env unit Scope.user 0 = true)
    (h1 : (env.unmaskUser unit).rc ≠ 0)
    (h2 : (env.unmaskSudo unit).rc = 0) :
    afterMask env unit Scope.user
      = remediationTail env unit Scope.user true true
          [Call.isMasked unit Scope.user 0, Call.unmaskUser unit,
           Call.unmaskSudo unit] := by
  simp [afterMask, h, h1, h2]

theorem afterMask_user_blocked (env : Env) (unit : Str)
    (h : is_unit_masked env unit Scope.user 0 = true)
    (h1 : (env.unmaskUser unit).rc ≠ 0)
    (h2 : (env.unmaskSudo unit).rc ≠ 0) :
    afterMask env unit Scope.user
      = blockedOutcome unit Scope.user
          [Call.isMasked unit Scope.user 0, Call.unmaskUser unit,
           Call.unmaskSudo unit] := by
  simp [afterMask, h, h1, h2]

theorem afterMask_system_unmask_ok (env : Env) (unit : Str)
    (h : is_unit_masked env unit Scope.system 0 = true)
    (h2 : (env.unmaskSudo unit).rc = 0) :
    afterMask env unit Scope.system
      = remediationTail env unit Scope.system true true
          [Call.isMasked unit Scope.system 0, Call.unmaskSudo unit] := by
  simp [afterMask, h, h2]

theorem afterMask_system_blocked (env : Env) (unit : Str)
    (h : is_unit_masked env unit Scope.system 0 = true)
    (h2 : (env.unmaskSudo unit).rc ≠ 0) :
    afterMask env unit Scope.system
      = blockedOutcome unit Scope.system
          [Call.isMasked unit Scope.system 0, Call.unmaskSudo unit] := by
  simp [afterMask, h, h2]

/-! ### Claims -/

/-- Claim C10: every best-effort (`allow_fail=True`) command invocation
returns an (exit code, combined output) pair and never raises to the caller;
a missing executable yields the distinct outcome (127, "") — for any exit
code other than 127 a completed command is distinguishable from it. -/
theorem claim10_run_quiet_total :
    (∀ o : ProcOutcome, (run_quiet true o).isSome = true)
    ∧ run_quiet true ProcOutcome.notFound = some (127, [])
    ∧ (∀ (rc : Int) (out err : Str),
        run_quiet true (ProcOutcome.completed rc out err) = some (rc, out ++ err))
    ∧ (∀ (rc : Int) (out err : Str), rc ≠ 127 →
        decide (run_quiet true (ProcOutcome.completed rc out err)
          = run_quiet true ProcOutcome.notFound) = false) := by
  refine ⟨?_, rfl, ?_, ?_⟩
  · intro o
    cases o <;> simp [run_quiet]
  · intro rc out err
    simp [run_quiet]
  · intro rc out err h
    rw [decide_eq_false_iff_not]
    intro hEq
    simp [run_quiet] at hEq
    exact h hEq.1

/-- Witness for C10: an ordinary failure (exit 1) is not the
command-not-found outcome. -/
theorem claim10_run_quiet_total_wit :
    decide (run_quiet true (ProcOutcome.completed 1 (str "boom") [])
      = run_quiet true ProcOutcome.notFound) = false :=
  claim10_run_quiet_total.2.2.2 1 (str "boom") [] (by decide)

/-- Claim C1: if the resolved unit is reported masked and every attempted
unmask path fails, remediation stops with started=false, enabled=false,
final_active=false, and the start and enable commands are never issued. -/
theorem claim1_blocked_when_unmask_fails (env : Env) (name unit : Str) (scope : Scope)
    (hres : (resolveOverall env name).1 = some (unit, scope))
    (hm : is_unit_masked env unit scope 0 = true)
    (hu : (env.unmaskUser unit).rc ≠ 0)
    (hs : (env.unmaskSudo unit).rc ≠ 0) :
    (unmask_and_start_dbus_service env name).started = false
    ∧ (unmask_and_start_dbus_service env name).enabled = false
    ∧ (unmask_and_start_dbus_service env name).final_active = false
    ∧ (unmask_and_start_dbus_service env name).calls.all
        (fun c => !c.isStartOrEnable) = true := by
  rw [uas_eq_afterMask env name unit scope hres]
  cases scope with
  | user =>
    rw [afterMask_user_blocked env unit hm hu hs]
    exact ⟨rfl, rfl, rfl, by simp [blockedOutcome, Call.isStartOrEnable]⟩
  | system =>
    rw [afterMask_system_blocked env unit hm hs]
    exact ⟨rfl, rfl, rfl, by simp [blockedOutcome, Call.isStartOrEnable]⟩

/-- Witness for C1: concrete masked unit, both unmask paths fail. -/
theorem claim1_blocked_when_unmask_fails_wit :
    (unmask_and_start_dbus_service envMasked (str "org.w.M")).started = false
    ∧ (unmask_and_start_dbus_service envMasked (str "org.w.M")).enabled = false
    ∧ (unmask_and_start_dbus_service envMasked (str "org.w.M")).final_active = false
    ∧ (unmask_and_start_dbus_service envMasked (str "org.w.M")).calls.all
        (fun c => !c.isStartOrEnable) = true :=
  claim1_blocked_when_unmask_fails envMasked (str "org.w.M") (str "m1.service")
    Scope.user (by decide) (by decide) (by decide) (by decide)

/-- Claim C6: if the mask check reports the unit not masked, no unmask
primitive is ever invoked and remediation proceeds directly to reload, start,
enable (then status, and the re-check only if active). -/
theorem claim6_no_unmask_when_not_masked (env : Env) (name unit : Str) (scope : Scope)
    (hres : (resolveOverall env name).1 = some (unit, scope))
    (hm : is_unit_masked env unit scope 0 = false) :
    (unmask_and_start_dbus_service env name).calls
      = [Call.isMasked unit scope 0, Call.daemonReload scope, Call.start unit scope,
         Call.enable unit scope, Call.status unit scope]
        ++ (if statusActive env unit scope then [Call.isMasked unit scope 1] else [])
    ∧ (unmask_and_start_dbus_service env name).calls.all (fun c => !c.isUnmask) = true := by
  rw [uas_eq_afterMask env name unit scope hres, afterMask_not_masked env unit scope hm]
  constructor
  · simp [remediationTail]
  · cases hA : statusActive env unit scope <;>
      simp [remediationTail, hA, Call.isUnmask]

/-- Witness for C6: concrete unmasked unit. -/
theorem claim6_no_unmask_when_not_masked_wit :
    (unmask_and_start_dbus_service envNotMasked (str "org.w.N")).calls
      = [Call.isMasked (str "n1.service") Scope.user 0,
         Call.daemonReload Scope.user, Call.start (str "n1.service") Scope.user,
         Call.enable (str "n1.service") Scope.user,
         Call.status (str "n1.service") Scope.user]
        ++ (if statusActive envNotMasked (str "n1.service") Scope.user then
              [Call.isMasked (str "n1.service") Scope.user 1] else [])
    ∧ (unmask_and_start_dbus_service envNotMasked (str "org.w.N")).calls.all
        (fun c => !c.isUnmask) = true :=
  claim6_no_unmask_when_not_masked envNotMasked (str "org.w.N") (str "n1.service")
    Scope.user (by decide) (by decide)

/-- Claim C8: for a masked unit resolved in user scope, a failed user-scope
unmask is followed by the sudo system-wide unmask of the same unit; if that
succeeds, unmask_succeeded is true and remediation proceeds to reload, start
and enable. -/
theorem claim8_user_fallback_unmask (env : Env) (name unit : Str)
    (hres : (resolveOverall env name).1 = some (unit, Scope.user))
    (hm : is_unit_masked env unit Scope.user 0 = true)
    (hu : (env.unmaskUser unit).rc ≠ 0)
    (hs : (env.unmaskSudo unit).rc = 0) :
    (unmask_and_start_dbus_service env name).was_masked = true
    ∧ (unmask_and_start_dbus_service env name).unmask_succeeded = true
    ∧ (unmask_and_start_dbus_service env name).calls
      = [Call.isMasked unit Scope.user 0, Call.unmaskUser unit, Call.unmaskSudo unit,
         Call.daemonReload Scope.user, Call.start unit Scope.user,
         Call.enable unit Scope.user, Call.status unit Scope.user]
        ++ (if statusActive env unit Scope.user then
              [Call.isMasked unit Scope.user 1] else []) := by
  rw [uas_eq_afterMask env name unit Scope.user hres,
    afterMask_user_fallback env unit hm hu hs]
  exact ⟨rfl, rfl, by simp [remediationTail]⟩

/-- Witness for C8: concrete masked unit, user unmask fails, sudo works. -/
theorem claim8_user_fallback_unmask_wit :
    (unmask_and_start_dbus_service envFallback (str "org.w.F")).was_masked = true
    ∧ (unmask_and_start_dbus_service envFallback (str "org.w.F")).unmask_succeeded = true
    ∧ (unmask_and_start_dbus_service envFallback (str "org.w.F")).calls
      = [Call.isMasked (str "f1.service") Scope.user 0,
         Call.unmaskUser (str "f1.service"), Call.unmaskSudo (str "f1.service"),
         Call.daemonReload Scope.user, Call.start (str "f1.service") Scope.user,
         Call.enable (str "f1.service") Scope.user,
         Call.status (str "f1.service") Scope.user]
        ++ (if statusActive envFallback (str "f1.service") Scope.user then
              [Call.isMasked (str "f1.service") Scope.user 1] else []) :=
  claim8_user_fallback_unmask envFallback (str "org.w.F") (str "f1.service")
    (by decide) (by decide) (by decide) (by decide)

/-- Claim C9: on every path that reaches the verification step,
final_active is true iff the status command exited 0 and its output contains
the marker `Active: active (running)`; the mask re-check only affects
re_masked_after_start (true exactly when the unit is active and the re-check
reports masked), never final_active. -/
theorem claim9_verification (env : Env) (name unit : Str) (scope : Scope)
    (hres : (resolveOverall env name).1 = some (unit, scope))
    (hreach : is_unit_masked env unit scope 0 = false ∨ unmaskPathOk env unit scope) :
    (unmask_and_start_dbus_service env name).final_active
      = ((env.status unit scope).rc == 0
          && occursIn (str "Active: active (running)") (env.status unit scope).output)
    ∧ (unmask_and_start_dbus_service env name).re_masked_after_start
      = ((unmask_and_start_dbus_service env name).final_active
          && is_unit_masked env unit scope 1) := by
  rw [uas_eq_afterMask env name unit scope hres]
  cases hmask : is_unit_masked env unit scope 0 with
  | false =>
    rw [afterMask_not_masked env unit scope hmask]
    exact ⟨rfl, rfl⟩
  | true =>
    rcases hreach with hm | hok
    · rw [hmask] at hm
      exact Bool.noConfusion hm
    · cases scope with
      | user =>
        have hok' : (env.unmaskUser unit).rc = 0 ∨ (env.unmaskSudo unit).rc = 0 := hok
        by_cases h1 : (env.unmaskUser unit).rc = 0
        · rw [afterMask_user_unmask_ok env unit hmask h1]
          exact ⟨rfl, rfl⟩
        · rw [afterMask_user_fallback env unit hmask h1 (hok'.resolve_left h1)]
          exact ⟨rfl, rfl⟩
      | system =>
        rw [afterMask_system_unmask_ok env unit hmask hok]
        exact ⟨rfl, rfl⟩

/-- Witness for C9: the unit comes up active but the re-check reports it
masked again — final_active stays true and re_masked_after_start is set. -/
theorem claim9_verification_wit :
    (unmask_and_start_dbus_service envRace (str "org.w.R")).final_active = true
    ∧ (unmask_and_start_dbus_service envRace (str "org.w.R")).re_masked_after_start
        = true := by
  have h := claim9_verification envRace (str "org.w.R") (str "r1.service") Scope.user
    (by decide) (Or.inl (by decide))
  exact ⟨h.1.trans (by decide), h.2.trans (by decide)⟩

theorem firstExisting_cons (env : Env) (scope : Scope) (c : Str) (rest : List Str) :
    firstExisting env scope (c :: rest)
      = if (env.listUnitFiles scope c).rc = 0 then some c
        else firstExisting env scope rest := rfl

theorem remediationTail_scopeOk (env : Env) (unit : Str) (scope : Scope)
    (w u : Bool) (cs : List Call) (hcs : cs.all (Call.scopeOk scope) = true) :
    (remediationTail env unit scope w u cs).calls.all (Call.scopeOk scope) = true := by
  cases hA : statusActive env unit scope <;>
    simp [remediationTail, hA, List.all_append, hcs, Call.scopeOk]

theorem afterMask_scopeOk (env : Env) (unit : Str) (scope : Scope) :
    (afterMask env unit scope).calls.all (Call.scopeOk scope) = true := by
  cases hmask : is_unit_masked env unit scope 0 with
  | false =>
    rw [afterMask_not_masked env unit scope hmask]
    exact remediationTail_scopeOk env unit scope false false _ (by simp [Call.scopeOk])
  | true =>
    cases scope with
    | user =>
      by_cases h1 : (env.unmaskUser unit).rc = 0
      · rw [afterMask_user_unmask_ok env unit hmask h1]
        exact remediationTail_scopeOk env unit Scope.user true true _
          (by simp [Call.scopeOk])
      · by_cases h2 : (env.unmaskSudo unit).rc = 0
        · rw [afterMask_user_fallback env unit hmask h1 h2]
          exact remediationTail_scopeOk env unit Scope.user true true _
            (by simp [Call.scopeOk])
        · rw [afterMask_user_blocked env unit hmask h1 h2]
          simp [blockedOutcome, Call.scopeOk]
    | system =>
      by_cases h2 : (env.unmaskSudo unit).rc = 0
      · rw [afterMask_system_unmask_ok env unit hmask h2]
        exact remediationTail_scopeOk env unit Scope.system true true _
          (by simp [Call.scopeOk])
      · rw [afterMask_system_blocked env unit hmask h2]
        simp [blockedOutcome, Call.scopeOk]

/-- Claim C2: resolution tries the user scope first and queries the system
scope only when the user scope found nothing; the first hit wins together
with its scope, and every scoped remediation command then runs in that
scope (the sudo unmask fallback is deliberately scope-free). -/
theorem claim2_scope_order (env : Env) (name : Str) :
    (∀ (u : Str) (m : Method),
        find_dbus_unit_for_service env name Scope.user = some (u, m) →
        resolveOverall env name = (some (u, Scope.user), [Scope.user]))
    ∧ (∀ (u : Str) (m : Method),
        find_dbus_unit_for_service env name Scope.user = none →
        find_dbus_unit_for_service env name Scope.system = some (u, m) →
        resolveOverall env name = (some (u, Scope.system), [Scope.user, Scope.system]))
    ∧ (∀ (unit : Str) (scope : Scope),
        (resolveOverall env name).1 = some (unit, scope) →
        (unmask_and_start_dbus_service env name).calls.all (Call.scopeOk scope) = true) := by
  refine ⟨fun u m h => resolveOverall_user env name u m h,
    fun u m h1 h2 => resolveOverall_system env name u m h1 h2, ?_⟩
  intro unit scope hres
  rw [uas_eq_afterMask env name unit scope hres]
  exact afterMask_scopeOk env unit scope

/-- Witness for C2: a user-scope hit resolves to user scope and the system
scope is never queried. -/
theorem claim2_scope_order_wit :
    resolveOverall envDirect (str "org.w.D2")
      = (some (str "u1.service", Scope.user), [Scope.user]) :=
  (claim2_scope_order envDirect (str "org.w.D2")).1 (str "u1.service")
    Method.directQuery (by decide)

/-- Claim C3 as stated is refuted: the reported value `Unit` is non-empty,
differs from the literal placeholder `unit`, and does not start with
`No unit`, yet the code rejects it (it lower-cases before comparing) and
falls through — resolution returns nothing instead of `Unit`. -/
theorem claim3_direct_query_cex :
    (envUnitPlaceholder.showUnit (str "org.example.Svc") Scope.user).rc = 0
    ∧ stripL (envUnitPlaceholder.showUnit (str "org.example.Svc") Scope.user).output
        = str "Unit"
    ∧ (str "Unit").isEmpty = false
    ∧ ((str "Unit") == str "unit") = false
    ∧ startsWithL (str "Unit") (str "No unit") = false
    ∧ find_dbus_unit_for_service envUnitPlaceholder (str "org.example.Svc") Scope.user
        = none := by
  decide

/-- Claim C3 amended: the direct query is authoritative exactly when it
exited 0 and its stripped value is non-empty, differs from `unit`
case-insensitively, and does not start with `No unit`; otherwise resolution
falls through to the unit-file scan. -/
theorem claim3_direct_query_amended (env : Env) (name : Str) (scope : Scope) :
    ((env.showUnit name scope).rc = 0 →
      (stripL (env.showUnit name scope).output).isEmpty = false →
      (lowerL (stripL (env.showUnit name scope).output) == str "unit") = false →
      startsWithL (stripL (env.showUnit name scope).output) (str "No unit") = false →
      find_dbus_unit_for_service env name scope
        = some (stripL (env.showUnit name scope).output, Method.directQuery))
    ∧ (directAccept (env.showUnit name scope) = false →
      find_dbus_unit_for_service env name scope = findFromFiles env name scope) := by
  constructor
  · intro h1 h2 h3 h4
    apply find_direct
    simp [directAccept, h1, h2, h3, h4]
  · exact find_not_direct env name scope

/-- Witness for the amended C3: an accepted direct query returns its value
with the DirectQuery method. -/
theorem claim3_direct_query_amended_wit :
    find_dbus_unit_for_service envDirect (str "org.w.D3") Scope.user
      = some (stripL (envDirect.showUnit (str "org.w.D3") Scope.user).output,
          Method.directQuery) :=
  (claim3_direct_query_amended envDirect (str "org.w.D3") Scope.user).1
    (by decide) (by decide) (by decide) (by decide)

/-- Claim C5: when the direct query and the unit-file scan both fail, the
resolver walks the heuristic table's candidates in priority order and returns
the first whose unit file the init system lists; in particular for
PermissionStore with only the gtk portal unit existing, that unit is returned
with the Heuristic method. -/
theorem claim5_heuristic_order (env : Env) (name : Str) (scope : Scope)
    (hd : directAccept (env.showUnit name scope) = false)
    (hg : (serviceFilesToGrep env scope).filter (fileMatches env name) = []) :
    (find_dbus_unit_for_service env name scope
      = (firstExisting env scope (commonUnitNames name)).map
          (fun u => (u, Method.heuristic)))
    ∧ (name = str "org.freedesktop.impl.portal.PermissionStore" →
       (env.listUnitFiles scope (str "xdg-desktop-portal.service")).rc ≠ 0 →
       (env.listUnitFiles scope (str "xdg-desktop-portal-gtk.service")).rc = 0 →
       find_dbus_unit_for_service env name scope
         = some (str "xdg-desktop-portal-gtk.service", Method.heuristic)) := by
  have hbase : find_dbus_unit_for_service env name scope
      = (firstExisting env scope (commonUnitNames name)).map
          (fun u => (u, Method.heuristic)) := by
    rw [find_not_direct env name scope hd, findFromFiles_no_hits env name scope hg]
  refine ⟨hbase, ?_⟩
  intro hn h1 h2
  subst hn
  rw [hbase]
  have hc : commonUnitNames (str "org.freedesktop.impl.portal.PermissionStore")
      = [str "xdg-desktop-portal.service", str "xdg-desktop-portal-gtk.service",
         str "xdg-desktop-portal-kde.service", str "xdg-desktop-portal-gnome.service",
         str "flatpak-portal.service"] := by decide
  rw [hc, firstExisting_cons, if_neg h1, firstExisting_cons, if_pos h2]
  rfl

/-- Witness for C5: the PermissionStore scenario with only the gtk unit
existing. -/
theorem claim5_heuristic_order_wit :
    find_dbus_unit_for_service envHeur
        (str "org.freedesktop.impl.portal.PermissionStore") Scope.user
      = some (str "xdg-desktop-portal-gtk.service", Method.heuristic) :=
  (claim5_heuristic_order envHeur (str "org.freedesktop.impl.portal.PermissionStore")
      Scope.user (by decide) (by decide)).2 rfl (by decide) (by decide)

/-- Claim C7: when the direct query, the unit-file scan and the heuristic
fallback all fail in both scopes, resolution returns absence (the embedding
is a total function — no exception path exists). -/
theorem claim7_returns_absence (env : Env) (name : Str)
    (hdu : directAccept (env.showUnit name Scope.user) = false)
    (hds : directAccept (env.showUnit name Scope.system) = false)
    (hgu : (serviceFilesToGrep env Scope.user).filter (fileMatches env name) = [])
    (hgs : (serviceFilesToGrep env Scope.system).filter (fileMatches env name) = [])
    (hh : ∀ (scope : Scope) (c : Str), c ∈ commonUnitNames name →
        (env.listUnitFiles scope c).rc ≠ 0) :
    resolveOverall env name = (none, [Scope.user, Scope.system]) := by
  have hu : find_dbus_unit_for_service env name Scope.user = none := by
    rw [find_not_direct env name Scope.user hdu,
      findFromFiles_no_hits env name Scope.user hgu,
      firstExisting_none env Scope.user _ (hh Scope.user)]
    rfl
  have hs : find_dbus_unit_for_service env name Scope.system = none := by
    rw [find_not_direct env name Scope.system hds,
      findFromFiles_no_hits env name Scope.system hgs,
      firstExisting_none env Scope.system _ (hh Scope.system)]
    rfl
  exact resolveOverall_none env name hu hs

/-- Witness for C7: a name unknown to every strategy resolves to absence. -/
theorem claim7_returns_absence_wit :
    resolveOverall baseEnv (str "org.example.None")
      = (none, [Scope.user, Scope.system]) :=
  claim7_returns_absence baseEnv (str "org.example.None") (by decide) (by decide)
    (by decide) (by decide)
    (by
      intro scope c hc
      rw [show commonUnitNames (str "org.example.None") = [] from by decide] at hc
      exact absurd hc (List.not_mem_nil c))

/-- Claim C4: the unit-file scan enumerates `.service` files under the
scope's two standard directories, matches lines that assign the service name
to `BusName`, `ExecStart` or the `D-BusService` activation key — optionally
`.service`-suffixed, optionally quoted, optionally followed by an immediate
`#` comment, anchored to the whole line, dots taken literally — and returns
the base name of the first matching file in enumeration order.  The generic
conjuncts establish the accepted line shapes for any service name (with any
suffix accepted by `afterNameOk`, whose concrete instances cover the empty
tail, the `.service` suffix, the closing quote and the trailing comment);
the concrete conjuncts pin anchoring, literal dots, and the end-to-end scan
on an environment with several matching files. -/
theorem claim4_unit_file_scan :
    (∀ (c : Char) (cs sfx : Str), isPyWs c = false → afterNameOk sfx = true →
      lineMatch (c :: cs) (str "BusName=" ++ ((c :: cs) ++ sfx)) = true
      ∧ lineMatch (c :: cs) (str "ExecStart=" ++ ((c :: cs) ++ sfx)) = true
      ∧ lineMatch (c :: cs) (str "D-BusService=" ++ ((c :: cs) ++ sfx)) = true)
    ∧ (∀ (name sfx : Str), afterNameOk sfx = true →
      lineMatch name (str "BusName=\"" ++ (name ++ sfx)) = true)
    ∧ (∀ (ws : Str) (c : Char) (cs sfx : Str), ws.all isPyWs = true →
      isPyWs c = false → afterNameOk sfx = true →
      lineMatch (c :: cs) (str "BusName=" ++ (ws ++ ((c :: cs) ++ sfx))) = true)
    ∧ (afterNameOk [] = true ∧ afterNameOk (str ".service") = true
      ∧ afterNameOk (str "\"") = true ∧ afterNameOk (str "#trailing comment") = true
      ∧ afterNameOk (str ".service\"#c") = true)
    ∧ (lineMatch (str "org.test.Bus") (str "XBusName=org.test.Bus") = false
      ∧ lineMatch (str "org.test.Bus") (str "BusName=org.test.Bus extra") = false
      ∧ lineMatch (str "org.test.Bus") (str "BusName=org.testxBus") = false)
    ∧ serviceFilesToGrep envGrep Scope.system
      = [str "/etc/systemd/system/zzz.service", str "/etc/systemd/system/aaa.service",
         str "/usr/lib/systemd/system/bbb.service"]
    ∧ find_dbus_unit_for_service envGrep (str "org.test.Bus") Scope.system
      = some (str "zzz.service", Method.unitFileGrep) := by
  refine ⟨?_, ?_, ?_, by decide, by decide, by decide, by decide⟩
  · intro c cs sfx hw hs
    refine ⟨?_, ?_, ?_⟩
    · rw [show str "BusName=" = str "BusName" ++ ['='] from by decide]
      exact lineMatch_keyed (c :: cs) (str "BusName") ((c :: cs) ++ sfx) (by decide)
        (eqValOk_plain c cs sfx hw hs)
    · rw [show str "ExecStart=" = str "ExecStart" ++ ['='] from by decide]
      exact lineMatch_keyed (c :: cs) (str "ExecStart") ((c :: cs) ++ sfx) (by decide)
        (eqValOk_plain c cs sfx hw hs)
    · rw [show str "D-BusService=" = str "D-BusService" ++ ['='] from by decide]
      exact lineMatch_keyed (c :: cs) (str "D-BusService") ((c :: cs) ++ sfx) (by decide)
        (eqValOk_plain c cs sfx hw hs)
  · intro name sfx hs
    rw [show str "BusName=\"" = (str "BusName" ++ ['=']) ++ ['"'] from by decide,
      List.append_assoc]
    exact lineMatch_keyed name (str "BusName") ('"' :: (name ++ sfx)) (by decide)
      (eqValOk_quoted name sfx hs)
  · intro ws c cs sfx hws hw hs
    rw [show str "BusName=" = str "BusName" ++ ['='] from by decide]
    exact lineMatch_keyed (c :: cs) (str "BusName") (ws ++ ((c :: cs) ++ sfx)) (by decide)
      (eqValOk_ws ws c cs sfx hws hw hs)

/-- Witness for C4: a concrete name with a trailing comment matches. -/
theorem claim4_unit_file_scan_wit :
    lineMatch (str "org.w.X") (str "BusName=" ++ ((str "org.w.X") ++ (str "#c"))) = true :=
  (claim4_unit_file_scan.1 'o' (str "rg.w.X") (str "#c") (by decide) (by decide)).1
